import Mathlib

/-!
# Verification of the pi-decoder control core

Shallow embedding of the state-bearing parts of the `pi_decoder` package
(`mpv_manager.py`, `pco_client.py`, `overlay.py`, `config.py`) together
with proofs of the specified properties.

Machine floats that only ever hold exact small decimals (retry backoffs,
monotonic timestamps) are modelled as rationals; whole-second datetimes
are modelled as integers (seconds since an arbitrary epoch).
-/

/-! ## Media engine (`mpv_manager.py`)

State relevant to the stream-retry / failover logic of `MpvManager`,
its `reset_stream_retry` method and the stream-health portion of
`_health_loop`, plus the IPC `_send` bookkeeping and `get_status`.
-/

/-- The `_FAILOVER_THRESHOLD` constant of `mpv_manager.py`. -/
def failoverThreshold : Nat := 3

/-- The mutable fields of `MpvManager` touched by `reset_stream_retry`
and the stream-health portion of `_health_loop`. -/
structure MpvState where
  stream_retry_backoff : ℚ
  last_stream_attempt : ℚ
  user_stopped : Bool
  stream_failures : Nat
  using_backup : Bool
  last_connection_type : String
deriving Repr, DecidableEq

/-- `MpvManager.reset_stream_retry`: restore the stream-retry state to
its initial values (backoff floor 5 s, no pending attempt, flags
cleared). -/
def reset_stream_retry (s : MpvState) : MpvState :=
  { s with
    stream_retry_backoff := 5
    last_stream_attempt := 0
    user_stopped := false
    stream_failures := 0
    using_backup := false }

/-- The stream-related configuration read by the health loop
(`config.stream.url`, `config.stream.backup_url`). -/
structure StreamCfg where
  url : String
  backup_url : String
deriving Repr, DecidableEq

/-- One pass of the stream-health portion of `MpvManager._health_loop`
(the body that runs after the liveness/ping checks succeeded).

Inputs beyond the state: the monotonic clock `now`, whether mpv reported
`idle`, the connection type reported by `_get_network_info`, whether the
best-effort overlay/network block completed without an exception
(`sideOk`), and whether the `loadfile` IPC command succeeded (`loadOk`).
Returns the successor state together with the URL passed to
`load_stream`, if a reload was attempted. -/
def healthStreamStep (cfg : StreamCfg) (s : MpvState) (now : ℚ)
    (idle : Bool) (connType : String) (sideOk : Bool) (loadOk : Bool) :
    MpvState × Option String :=
  if idle then
    -- idle branch: overlay push + network-change detection (best effort)
    let s1 :=
      if sideOk then
        let s' :=
          if s.last_connection_type ≠ "" ∧ connType ≠ s.last_connection_type ∧
              connType ≠ "none" ∧ connType ≠ "hotspot" then
            reset_stream_retry s
          else s
        { s' with last_connection_type := connType }
      else s
    -- stream retry, gated on a configured URL, no explicit user stop,
    -- and the retry backoff having elapsed
    if cfg.url ≠ "" ∧ s1.user_stopped = false ∧
        now - s1.last_stream_attempt > s1.stream_retry_backoff then
      let failures := s1.stream_failures + 1
      let choice :=
        if cfg.backup_url ≠ "" ∧ failures ≥ failoverThreshold ∧
            s1.using_backup = false then
          (cfg.backup_url, true)
        else if s1.using_backup = true ∧ cfg.backup_url ≠ "" then
          (cfg.backup_url, s1.using_backup)
        else (cfg.url, s1.using_backup)
      let s2 :=
        { s1 with
          stream_failures := failures
          using_backup := choice.2
          last_stream_attempt := now
          user_stopped := false }  -- `load_stream` clears the flag
      let s3 :=
        if loadOk then
          { s2 with stream_retry_backoff := min (s2.stream_retry_backoff * (3/2)) 60 }
        else s2
      (s3, some choice.1)
    else (s1, none)
  else
    -- playing: clear overlay, reset backoff and failure counter
    let s1 := { s with stream_retry_backoff := 5, stream_failures := 0 }
    (if sideOk then { s1 with last_connection_type := connType } else s1, none)

/-- Python values travelling over the mpv JSON IPC, as far as
`get_status` inspects them. -/
inductive JVal where
  | vBool (b : Bool)
  | vNum (n : Int)
  | vStr (s : String)
  | vNull
deriving Repr, DecidableEq

/-- Python truthiness of a `JVal` (used by `or` fallbacks and
`not`/`and` in `get_status`). -/
def truthy : JVal → Bool
  | .vBool b => b
  | .vNum n => n ≠ 0
  | .vStr s => s ≠ ""
  | .vNull => false

/-- Python `str()` of a `JVal` (used by the f-string building
`resolution`). -/
def pyStr : JVal → String
  | .vBool b => if b then "True" else "False"
  | .vNum n => toString n
  | .vStr s => s
  | .vNull => "None"

/-- The pause/idle/path block of `get_status` (one `try` in the
source): it queries `pause`, `idle-active` and `path`; if any query
raises, the fallback sets `playing = False`, `idle = True` and an empty
`stream_url` (and no `paused` key). -/
def statusPlayBlock (q : String → Option JVal) : List (String × JVal) :=
  match q "pause", q "idle-active", q "path" with
  | some pv, some iv, some pathv =>
    [("paused", pv), ("idle", iv),
     ("playing", JVal.vBool (!truthy pv && !truthy iv)),
     ("stream_url", if truthy pathv then pathv else JVal.vStr "")]
  | _, _, _ =>
    [("playing", JVal.vBool false), ("idle", JVal.vBool true),
     ("stream_url", JVal.vStr "")]

/-- The `hwdec-current` block of `get_status`. -/
def statusHwBlock (q : String → Option JVal) : List (String × JVal) :=
  match q "hwdec-current" with
  | some v => [("hwdec_current", if truthy v then v else JVal.vStr "")]
  | none => [("hwdec_current", JVal.vStr "")]

/-- The video-performance block of `get_status` (fps, drop counters,
resolution), with its all-or-nothing exception fallback. -/
def statusStatsBlock (q : String → Option JVal) : List (String × JVal) :=
  match q "estimated-vf-fps", q "frame-drop-count", q "decoder-frame-drop-count",
      q "video-params/w", q "video-params/h" with
  | some f, some d, some dd, some w, some h =>
    [("fps", if truthy f then f else JVal.vNum 0),
     ("dropped_frames", if truthy d then d else JVal.vNum 0),
     ("decoder_drops", if truthy dd then dd else JVal.vNum 0),
     ("resolution",
      if truthy w && truthy h then JVal.vStr (pyStr w ++ "x" ++ pyStr h)
      else JVal.vStr "")]
  | _, _, _, _, _ =>
    [("fps", JVal.vNum 0), ("dropped_frames", JVal.vNum 0),
     ("decoder_drops", JVal.vNum 0), ("resolution", JVal.vStr "")]

/-- `MpvManager.get_status`, with the IPC property oracle `q` standing
for `_get_property` (`none` = the query raised). Returns the result
dict as an association list in insertion order. -/
def get_status (alive usingBackup : Bool) (q : String → Option JVal) :
    List (String × JVal) :=
  [("alive", JVal.vBool alive)] ++ statusPlayBlock q ++ statusHwBlock q ++
    statusStatsBlock q ++ [("using_backup", JVal.vBool usingBackup)]

/-- The id-correlation state of the IPC channel: the last allocated
`request_id` and the keys of the `_pending` futures map. -/
structure ChanState where
  request_id : Nat
  pending : List Nat
deriving Repr, DecidableEq

/-- Result of one `MpvManager._send` call. -/
inductive SendOutcome where
  | data (v : JVal)
  | ipcError (msg : String)
  | timeout
  | notConnected
deriving Repr, DecidableEq

/-- `MpvManager._send`: allocate the next id and register it under the
IPC lock, then await the response; `resp` is what the reader delivers
for that id within the timeout (`none` = no response in time). On a
matching response the reader pops the entry; on timeout the sender pops
it before re-raising. -/
def sendIpc (s : ChanState) (connected : Bool)
    (resp : Option (Except String JVal)) : ChanState × SendOutcome :=
  if ¬connected then (s, .notConnected)
  else
    let rid := s.request_id + 1
    let pend := rid :: s.pending
    match resp with
    | some (.ok v) => (⟨rid, pend.erase rid⟩, .data v)
    | some (.error m) => (⟨rid, pend.erase rid⟩, .ipcError m)
    | none => (⟨rid, pend.erase rid⟩, .timeout)

/-! ## Live-status tracker circuit breaker (`pco_client.py`)

The repository's test suite (`tests/test_pco_client.py`,
`TestCircuitBreaker`) exercises `PCOClient._consecutive_failures`,
`PCOClient._backoff_until` and `PCOClient._record_failure`, but that
implementation does not appear in `src/pi_decoder/pco_client.py`; the
definitions below model it from the specification. -/

/-- Modelled from the spec: the failure threshold (5) at which the
circuit breaker opens; missing from `pco_client.py`. -/
def cbThreshold : Nat := 5

/-- Modelled from the spec: the cap (300 s) on the backoff window;
missing from `pco_client.py`. -/
def cbMaxBackoff : Nat := 300

/-- Modelled from the spec: the circuit-breaker state
`{consecutiveFailures, backoffUntil}` of the Live-Status Tracker,
together with the cached status it returns while the window is open;
missing from `pco_client.py`. -/
structure CBState where
  consecutive_failures : Nat
  backoff_until : Nat
  cached : String
deriving Repr, DecidableEq

/-- Modelled from the spec: `PCOClient._record_failure` — increment the
consecutive-failure counter and, once it has reached the threshold,
open a window of `min(2^(failures-5), 300)` seconds from `now`;
missing from `pco_client.py`. -/
def cbRecordFailure (now : Nat) (s : CBState) : CBState :=
  let cf := s.consecutive_failures + 1
  { s with
    consecutive_failures := cf
    backoff_until :=
      if cf ≥ cbThreshold then now + min (2 ^ (cf - cbThreshold)) cbMaxBackoff
      else s.backoff_until }

/-- Modelled from the spec: the circuit-breaker reset performed by
`PCOClient.update_credentials`; missing from `pco_client.py`. -/
def cbUpdateCredentials (s : CBState) : CBState :=
  { s with consecutive_failures := 0, backoff_until := 0 }

/-- Outcome of the remote call attempted by `get_live_status` when the
window is closed. -/
inductive CBOutcome where
  | success (newStatus : String)
  | failure
deriving Repr, DecidableEq

/-- Modelled from the spec: the circuit-breaker path of
`PCOClient.get_live_status` — inside the window, return the cached
status with zero remote requests; otherwise make one remote call and
record its success (reset both fields, cache the fresh status) or
failure; missing from `pco_client.py`. Returns
(state, returned status, number of remote calls). -/
def cbGetLiveStatus (s : CBState) (now : Nat) (outcome : CBOutcome) :
    CBState × String × Nat :=
  if now < s.backoff_until then (s, s.cached, 0)
  else
    match outcome with
    | .success st => (⟨0, 0, st⟩, st, 1)
    | .failure => (cbRecordFailure now s, s.cached, 1)

/-! ## Overlay renderer (`overlay.py`)

The schedule-status line ("Ends Xm ahead/behind at HH:MM"). Datetimes
are whole seconds since an arbitrary epoch; the timezone is a fixed
offset in seconds. -/

/-- Two-digit zero padding (the `%H`/`%M` fields of `strftime`). -/
def pad2 (n : Nat) : String :=
  if n < 10 then "0" ++ toString n else toString n

/-- Local wall-clock `HH:MM` of epoch second `t` under UTC offset
`tzOff` (`astimezone(local_tz)` followed by `strftime('%H:%M')`). -/
def hhmm (t : Int) (tzOff : Int) : String :=
  let total := (t + tzOff) % 86400
  pad2 (total / 3600).toNat ++ ":" ++ pad2 ((total % 3600) / 60).toNat

/-- `_format_schedule_status` from `overlay.py`: OVERTIME when no time
remains, otherwise the projected local end time with an on-time /
behind / ahead slip classification against the planned end. -/
def formatScheduleStatus (remaining : Int) (planned_service_end : Option Int)
    (now : Int) (tzOff : Int) : String :=
  if remaining ≤ 0 then "OVERTIME"
  else
    let projected_end := now + remaining
    let end_time_str := hhmm projected_end tzOff
    match planned_service_end with
    | none => "Ends at " ++ end_time_str
    | some p =>
      let slip_seconds := projected_end - p
      let slip_minutes := slip_seconds.natAbs / 60
      if slip_seconds.natAbs < 60 then "Ends on time at " ++ end_time_str
      else if slip_seconds > 0 then
        "Ends " ++ toString slip_minutes ++ "m behind at " ++ end_time_str
      else "Ends " ++ toString slip_minutes ++ "m ahead at " ++ end_time_str

/-! ## Configuration (`config.py`)

The dataclass sections and the safe export `to_dict_safe`. TOML values
are modelled by `CVal`; the float `transparency` by a rational. -/

/-- A TOML-representable config value. -/
inductive CVal where
  | s (v : String)
  | i (v : Int)
  | b (v : Bool)
  | q (v : ℚ)
  | ps (v : List (String × String))
deriving Repr, DecidableEq

/-- `GeneralConfig` from `config.py`. -/
structure GeneralConfig where
  name : String
deriving Repr, DecidableEq

/-- `StreamConfig` from `config.py`. -/
structure StreamConfig where
  url : String
  backup_url : String
  network_caching : Int
  hwdec : String
  max_resolution : String
  presets : List (String × String)
deriving Repr, DecidableEq

/-- `OverlayConfig` from `config.py`. -/
structure OverlayConfig where
  enabled : Bool
  position : String
  font_size : Int
  font_size_title : Int
  font_size_info : Int
  transparency : ℚ
  timer_mode : String
  show_description : Bool
  show_service_end : Bool
  timezone : String
deriving Repr, DecidableEq

/-- `PCOConfig` from `config.py` (the `secret` field is the sensitive
credential). -/
structure PCOConfig where
  app_id : String
  secret : String
  service_type_id : String
  folder_id : String
  search_mode : String
  poll_interval : Int
deriving Repr, DecidableEq

/-- `WebConfig` from `config.py`. -/
structure WebConfig where
  port : Int
deriving Repr, DecidableEq

/-- `NetworkConfig` from `config.py`. -/
structure NetworkConfig where
  hotspot_ssid : String
  hotspot_password : String
  ethernet_timeout : Int
  wifi_timeout : Int
  eth_ip_mode : String
  eth_ip_address : String
  eth_gateway : String
  eth_dns : String
  wifi_ip_mode : String
  wifi_ip_address : String
  wifi_gateway : String
  wifi_dns : String
deriving Repr, DecidableEq

/-- `DisplayConfig` from `config.py`. -/
structure DisplayConfig where
  hdmi_resolution : String
deriving Repr, DecidableEq

/-- `Config` from `config.py`. -/
structure Config where
  general : GeneralConfig
  stream : StreamConfig
  overlay : OverlayConfig
  pco : PCOConfig
  web : WebConfig
  network : NetworkConfig
  display : DisplayConfig
deriving Repr, DecidableEq

/-- `_section_to_dict` on a `GeneralConfig` (dataclass field order). -/
def generalToDict (c : GeneralConfig) : List (String × CVal) :=
  [("name", .s c.name)]

/-- `_section_to_dict` on a `StreamConfig`. -/
def streamToDict (c : StreamConfig) : List (String × CVal) :=
  [("url", .s c.url), ("backup_url", .s c.backup_url),
   ("network_caching", .i c.network_caching), ("hwdec", .s c.hwdec),
   ("max_resolution", .s c.max_resolution), ("presets", .ps c.presets)]

/-- `_section_to_dict` on an `OverlayConfig`. -/
def overlayToDict (c : OverlayConfig) : List (String × CVal) :=
  [("enabled", .b c.enabled), ("position", .s c.position),
   ("font_size", .i c.font_size), ("font_size_title", .i c.font_size_title),
   ("font_size_info", .i c.font_size_info), ("transparency", .q c.transparency),
   ("timer_mode", .s c.timer_mode), ("show_description", .b c.show_description),
   ("show_service_end", .b c.show_service_end), ("timezone", .s c.timezone)]

/-- `_section_to_dict` on a `PCOConfig` — note it does include
`secret`. -/
def pcoToDict (c : PCOConfig) : List (String × CVal) :=
  [("app_id", .s c.app_id), ("secret", .s c.secret),
   ("service_type_id", .s c.service_type_id), ("folder_id", .s c.folder_id),
   ("search_mode", .s c.search_mode), ("poll_interval", .i c.poll_interval)]

/-- `_section_to_dict` on a `WebConfig`. -/
def webToDict (c : WebConfig) : List (String × CVal) :=
  [("port", .i c.port)]

/-- `_section_to_dict` on a `NetworkConfig`. -/
def networkToDict (c : NetworkConfig) : List (String × CVal) :=
  [("hotspot_ssid", .s c.hotspot_ssid), ("hotspot_password", .s c.hotspot_password),
   ("ethernet_timeout", .i c.ethernet_timeout), ("wifi_timeout", .i c.wifi_timeout),
   ("eth_ip_mode", .s c.eth_ip_mode), ("eth_ip_address", .s c.eth_ip_address),
   ("eth_gateway", .s c.eth_gateway), ("eth_dns", .s c.eth_dns),
   ("wifi_ip_mode", .s c.wifi_ip_mode), ("wifi_ip_address", .s c.wifi_ip_address),
   ("wifi_gateway", .s c.wifi_gateway), ("wifi_dns", .s c.wifi_dns)]

/-- `_section_to_dict` on a `DisplayConfig`. -/
def displayToDict (c : DisplayConfig) : List (String × CVal) :=
  [("hdmi_resolution", .s c.hdmi_resolution)]

/-- `to_dict_safe` from `config.py`: export every section, with
`data["pco"].pop("secret", None)` rendered as removing the `secret`
entry from the pco section. -/
def to_dict_safe (c : Config) : List (String × List (String × CVal)) :=
  [("general", generalToDict c.general),
   ("stream", streamToDict c.stream),
   ("overlay", overlayToDict c.overlay),
   ("pco", (pcoToDict c.pco).filter fun e => e.1 ≠ "secret"),
   ("web", webToDict c.web),
   ("network", networkToDict c.network),
   ("display", displayToDict c.display)]

/-! ## Live-status tracker state machine (`pco_client.py`)

`_parse_live_response`, `_poll_live`, `_fetch_live_status_locked`,
`_discover_and_poll` and the `_find_best_live_plan` selection loop.
Datetimes are whole seconds (`Int`); in the selection loop timestamps
are seconds since `datetime.min` (`Nat`), mirroring the loop's
`datetime.min` sentinel. HTTP traffic is abstracted by an environment:
each Live poll yields a parsed response or an error, and one full
discovery scan is a single unit yielding its winning candidate. -/

/-- The `LiveStatus` snapshot dataclass of `pco_client.py`. -/
structure LiveStatus where
  is_live : Bool := false
  finished : Bool := false
  plan_title : String := ""
  item_title : String := ""
  item_description : String := ""
  item_end_time : Option Int := none
  service_end_time : Option Int := none
  remaining_items_length : Int := 0
  message : String := ""
  next_item_title : String := ""
  plan_index : Nat := 0
  plan_length : Nat := 0
  planned_service_end : Option Int := none
deriving Repr, DecidableEq

/-- The attributes of an `Item` object in a Live response. -/
structure ItemAttrs where
  title : String := ""
  description : String := ""
  length : Int := 0
  item_type : String := ""
  service_position : String := ""
deriving Repr, DecidableEq

/-- An object of the `included` array of a Live response: an `Item`, an
`ItemTime` (with its `live_start_at` and its `item` relationship), or
an object of any other type. -/
inductive IncObj where
  | item (id : String) (attrs : ItemAttrs)
  | itemTime (id : String) (live_start_at : Option Int) (itemRef : Option String)
  | other (id : String)
deriving Repr, DecidableEq

/-- The `id` of an included object (`o.get("id")`). -/
def IncObj.objId : IncObj → String
  | .item i _ => i
  | .itemTime i _ _ => i
  | .other i => i

/-- The parsed body of a Live response: plan title, the plan's own
`live_start_at` attribute, the `current_item_time` relationship
reference, and the included objects. -/
structure LiveResp where
  plan_title : String
  plan_live_start_at : Option Int
  cit_ref : Option String
  included : List IncObj
deriving Repr, DecidableEq

/-- The non-header during-service items of the `included` array
(`item_type != "header" and service_position == "during"`), in order. -/
def duringItems (included : List IncObj) : List (String × ItemAttrs) :=
  included.filterMap fun o =>
    match o with
    | .item i a =>
      if a.item_type ≠ "header" ∧ a.service_position = "during" then some (i, a)
      else none
    | _ => none

/-- `sum(i["attributes"].get("length", 0) for i in items)`. -/
def sumLengths (items : List (String × ItemAttrs)) : Int :=
  (items.map fun i => i.2.length).sum

/-- `PCOClient._finished_status`: END OF SERVICE — live and finished,
with the service end projected from the plan's `live_start_at` plus the
total length of the during items. -/
def finishedStatus (plan_title : String) (plan_live_start_at : Option Int)
    (items : List (String × ItemAttrs)) (planned_service_end : Option Int) :
    LiveStatus :=
  { is_live := true
    finished := true
    plan_title := plan_title
    service_end_time := plan_live_start_at.map (· + sumLengths items)
    planned_service_end := planned_service_end }

/-- The `for i, item in enumerate(items)` scan of
`_active_item_status`: returns (plan_index, remaining length after the
current item, next item title). -/
def activeScan (current_id : String) : List (String × ItemAttrs) → Nat → Nat →
    Int → Bool → String → Nat × Int × String
  | [], _, planIdx, rem, _, nt => (planIdx, rem, nt)
  | (iid, a) :: rest, i, planIdx, rem, found, nt =>
    if iid = current_id then activeScan current_id rest (i + 1) (i + 1) rem true nt
    else if found then
      activeScan current_id rest (i + 1) planIdx (rem + a.length) found
        (if nt = "" then a.title else nt)
    else activeScan current_id rest (i + 1) planIdx rem found nt

/-- `PCOClient._active_item_status`: build the status for the current
item, split on its `service_position` (pre / post / during). -/
def activeItemStatus (now : Int) (plan_title : String) (current_id : String)
    (iattrs : ItemAttrs) (cit_live_start : Option Int)
    (items : List (String × ItemAttrs)) (planned_service_end : Option Int) :
    LiveStatus :=
  if iattrs.service_position = "pre" then
    { is_live := true
      plan_title := plan_title
      item_title := iattrs.title
      item_description := iattrs.description
      item_end_time := none
      service_end_time := planned_service_end
      remaining_items_length := sumLengths items
      next_item_title := (items.head?.map fun i => i.2.title).getD ""
      plan_index := 0
      plan_length := items.length
      planned_service_end := planned_service_end }
  else if iattrs.service_position = "post" then
    { is_live := true
      plan_title := plan_title
      item_title := iattrs.title
      item_description := iattrs.description
      item_end_time := none
      service_end_time := none
      remaining_items_length := 0
      next_item_title := ""
      plan_index := items.length
      plan_length := items.length
      planned_service_end := planned_service_end }
  else
    let item_end_time :=
      match cit_live_start with
      | some ls => if iattrs.length ≠ 0 then some (ls + iattrs.length) else none
      | none => none
    let scan := activeScan current_id items 0 0 0 false ""
    { is_live := true
      plan_title := plan_title
      item_title := iattrs.title
      item_description := iattrs.description
      item_end_time := item_end_time
      service_end_time := item_end_time.map fun e => max e now + scan.2.1
      remaining_items_length := scan.2.1
      next_item_title := scan.2.2
      plan_index := scan.1
      plan_length := items.length
      planned_service_end := planned_service_end }

/-- `PCOClient._parse_live_response` (also returning the updated
`_seen_active_item` latch): no current-item-time reference means
finished when the latch is set and "Not live" otherwise; with a
reference, resolve the `ItemTime` and its `Item` — a non-`Item` target
is END OF SERVICE, a missing target is the pre-service countdown, and
an `Item` target sets the latch and builds the active-item status. -/
def parseLiveResponse (seen_active_item : Bool) (now : Int) (r : LiveResp)
    (service_start planned_end : Option Int) : LiveStatus × Bool :=
  let items_only := duringItems r.included
  match r.cit_ref with
  | none =>
    if seen_active_item then
      (finishedStatus r.plan_title r.plan_live_start_at items_only planned_end,
       seen_active_item)
    else
      ({ is_live := false, plan_title := r.plan_title, message := "Not live" },
       seen_active_item)
  | some cit_id =>
    let planned_service_end :=
      match planned_end with
      | some pe => some pe
      | none =>
        match service_start with
        | some ss => some (ss + sumLengths items_only)
        | none => none
    let cit_obj :=
      (r.included.filterMap fun o =>
        match o with
        | .itemTime i ls iref => if i = cit_id then some (ls, iref) else none
        | _ => none).head?
    match cit_obj with
    | none =>
      ({ is_live := true, plan_title := r.plan_title, message := "Live" },
       seen_active_item)
    | some (cit_ls, item_ref) =>
      let current :=
        match item_ref with
        | some iid => r.included.find? fun (o : IncObj) => o.objId == iid
        | none => none
      match current with
      | some (.item cid attrs) =>
        (activeItemStatus now r.plan_title cid attrs cit_ls items_only
          planned_service_end, true)
      | some _ =>
        (finishedStatus r.plan_title r.plan_live_start_at items_only
          planned_service_end, seen_active_item)
      | none =>
        ({ is_live := true, plan_title := r.plan_title, message := "Pre-service" },
         seen_active_item)

/-- The lock-related state of `PCOClient`. -/
structure TrackerState where
  locked_plan_id : Option String
  locked_st_id : Option String
  locked_service_start : Option Int
  locked_planned_end : Option Int
  locked_live_start_at : Option Int
  seen_active_item : Bool
  last_full_scan : Int
deriving Repr, DecidableEq

/-- Outcome of one HTTP request to a plan's Live endpoint. -/
inductive PollOutcome where
  | ok (r : LiveResp)
  | notFound
  | httpError
deriving Repr, DecidableEq

/-- What `_find_best_live_plan` returns:
`(plan_id, st_id, live_start_at, service_start, planned_end)`. -/
structure ScanResult where
  plan_id : String
  st_id : String
  live_start_at : Int
  service_start : Option Int
  planned_end : Option Int
deriving Repr, DecidableEq

/-- The remote world during one tracker invocation: the wall clock, the
Live-poll responses, the result of a full discovery scan, and the
status `_find_upcoming_plan` would produce. -/
structure TrackerEnv where
  now : Int
  poll : String → String → PollOutcome
  scan : Option ScanResult
  upcoming : LiveStatus

/-- One unit of remote traffic: a Live poll of a specific plan, one
full discovery scan, or the upcoming-plan fallback lookup. -/
inductive RemoteCall where
  | poll (plan st : String)
  | scan
  | upcoming
deriving Repr, DecidableEq

/-- `PCOClient._poll_live` for a specific plan: errors degrade to a
message-only status; a 200 response is parsed with the locked
service-start/planned-end and may flip the latch. -/
def pollLive (s : TrackerState) (plan st : String) (env : TrackerEnv) :
    LiveStatus × TrackerState :=
  match env.poll plan st with
  | .notFound => ({ message := "Plan not found" }, s)
  | .httpError => ({ message := "Live API error" }, s)
  | .ok r =>
    let p := parseLiveResponse s.seen_active_item env.now r
      s.locked_service_start s.locked_planned_end
    (p.1, { s with seen_active_item := p.2 })

/-- The unlock block of `_fetch_live_status_locked`: clear all lock
state. -/
def clearLock (s : TrackerState) : TrackerState :=
  { s with
    locked_plan_id := none
    locked_st_id := none
    locked_service_start := none
    locked_planned_end := none
    locked_live_start_at := none
    seen_active_item := false }

/-- `PCOClient._discover_and_poll`: run a full scan; on a winner, stage
its times, confirm with one live poll and lock on success (clearing the
staged times otherwise); with no live candidate fall back to
`_find_upcoming_plan`. Returns (state, status, remote calls). -/
def discoverAndPoll (s : TrackerState) (env : TrackerEnv) :
    TrackerState × LiveStatus × List RemoteCall :=
  match env.scan with
  | some b =>
    let s1 := { s with
      locked_service_start := b.service_start
      locked_planned_end := b.planned_end
      locked_live_start_at := some b.live_start_at }
    let pr := pollLive s1 b.plan_id b.st_id env
    if pr.1.is_live || pr.1.finished then
      ({ pr.2 with
          locked_plan_id := some b.plan_id
          locked_st_id := some b.st_id
          last_full_scan := env.now }, pr.1,
       [.scan, .poll b.plan_id b.st_id])
    else
      ({ pr.2 with
          locked_service_start := none
          locked_planned_end := none
          locked_live_start_at := none }, env.upcoming,
       [.scan, .poll b.plan_id b.st_id, .upcoming])
  | none => (s, env.upcoming, [.scan, .upcoming])

/-- `PCOClient._fetch_live_status_locked`: locked fast path (one poll),
the 60-second periodic rescan with abandoned-session takeover (switch
and re-poll when the scan finds a different plan with a strictly newer
`live_start_at`), unlock-and-rediscover when the poll reports neither
live nor finished, and discovery when not locked. Returns
(state, status, remote calls). -/
def fetchLiveStatusLocked (s : TrackerState) (env : TrackerEnv) :
    TrackerState × LiveStatus × List RemoteCall :=
  match s.locked_plan_id, s.locked_st_id with
  | some pid, some stid =>
    let pr := pollLive s pid stid env
    if pr.1.is_live || pr.1.finished then
      if env.now - pr.2.last_full_scan ≥ 60 then
        let s2 := { pr.2 with last_full_scan := env.now }
        match env.scan, s2.locked_live_start_at with
        | some b, some l =>
          if b.plan_id ≠ pid ∧ b.live_start_at > l then
            let s3 := { s2 with
              locked_plan_id := some b.plan_id
              locked_st_id := some b.st_id
              locked_live_start_at := some b.live_start_at
              locked_service_start := b.service_start
              locked_planned_end := b.planned_end
              seen_active_item := false }
            let pr2 := pollLive s3 b.plan_id b.st_id env
            (pr2.2, pr2.1, [.poll pid stid, .scan, .poll b.plan_id b.st_id])
          else (s2, pr.1, [.poll pid stid, .scan])
        | _, _ => (s2, pr.1, [.poll pid stid, .scan])
      else (pr.2, pr.1, [.poll pid stid])
    else
      let d := discoverAndPoll (clearLock pr.2) env
      (d.1, d.2.1, .poll pid stid :: d.2.2)
  | _, _ => discoverAndPoll s env

/-- A live candidate enumerated during `_find_best_live_plan`:
timestamps here are seconds since `datetime.min`, the loop's sentinel
(`best_live_start = datetime.min`, i.e. `0`). -/
structure Candidate where
  plan_id : String
  st_id : String
  live_start_at : Nat
  service_start : Option Int
  planned_end : Option Int
deriving Repr, DecidableEq

/-- The selection loop of `_find_best_live_plan`: keep the running best
and replace it only on a strictly greater `live_start_at`. -/
def findBestGo (best : Option Candidate) (bestLs : Nat) :
    List Candidate → Option Candidate
  | [] => best
  | c :: rest =>
    if bestLs < c.live_start_at then findBestGo (some c) c.live_start_at rest
    else findBestGo best bestLs rest

/-- `PCOClient._find_best_live_plan` over the ordered list of live
candidates its nested loops enumerate. -/
def findBestLivePlan (cands : List Candidate) : Option Candidate :=
  findBestGo none 0 cands

/-! Theorems for the media-engine claims follow after all definitions. -/

/-- C8 counterexample: `reset_stream_retry` does not zero the
stream-retry backoff — from a state with a grown backoff it restores the
5-second floor, not 0. -/
theorem reset_stream_retry_backoff_not_zero :
    (reset_stream_retry ⟨60, 100, true, 7, true, "wifi"⟩).stream_retry_backoff = 5 ∧
    (reset_stream_retry ⟨60, 100, true, 7, true, "wifi"⟩).stream_retry_backoff ≠ 0 := by
  constructor
  · rfl
  · decide

/-- C8 (amended): `reset_stream_retry` is idempotent and, from any prior
state, restores the stream-retry backoff to its 5-second floor, zeroes
the last-attempt timestamp and the failure counter, and clears the
backup and user-stopped flags (the connection-type memo is untouched). -/
theorem reset_stream_retry_spec (s : MpvState) :
    reset_stream_retry (reset_stream_retry s) = reset_stream_retry s ∧
    (reset_stream_retry s).stream_retry_backoff = 5 ∧
    (reset_stream_retry s).last_stream_attempt = 0 ∧
    (reset_stream_retry s).user_stopped = false ∧
    (reset_stream_retry s).stream_failures = 0 ∧
    (reset_stream_retry s).using_backup = false ∧
    (reset_stream_retry s).last_connection_type = s.last_connection_type := by
  refine ⟨rfl, rfl, rfl, rfl, rfl, rfl, rfl⟩

/-- Helper: an idle health-loop cycle with an elapsed backoff and no
network change performs a reload attempt; primary-URL case (failover
condition not met, backup not in use). -/
lemma healthStreamStep_attempt_primary (cfg : StreamCfg) (s : MpvState) (now : ℚ)
    (c : String) (hc : c = s.last_connection_type)
    (hurl : cfg.url ≠ "") (hus : s.user_stopped = false)
    (hg : now - s.last_stream_attempt > s.stream_retry_backoff)
    (hub : s.using_backup = false)
    (hnb : ¬(cfg.backup_url ≠ "" ∧ s.stream_failures + 1 ≥ failoverThreshold ∧
      s.using_backup = false)) :
    healthStreamStep cfg s now true c true true =
      ({ s with
          stream_retry_backoff := min (s.stream_retry_backoff * (3/2)) 60
          stream_failures := s.stream_failures + 1
          last_stream_attempt := now
          user_stopped := false },
       some cfg.url) := by
  subst hc
  simp only [healthStreamStep, ne_eq, not_true_eq_false, false_and, and_false, if_true,
    ite_false, ite_true, if_neg hnb, hub]
  rw [if_pos ⟨hurl, hus, hg⟩]
  split_ifs with h1 h2
  · exact absurd ⟨h1.1, h1.2.1, hub⟩ hnb
  · exact absurd h2.1 (by decide)
  · rfl

/-- Helper: idle cycle with elapsed backoff reaching the failover
threshold: the backup URL is chosen and `using_backup` set. -/
lemma healthStreamStep_attempt_backup (cfg : StreamCfg) (s : MpvState) (now : ℚ)
    (c : String) (hc : c = s.last_connection_type)
    (hurl : cfg.url ≠ "") (hus : s.user_stopped = false)
    (hg : now - s.last_stream_attempt > s.stream_retry_backoff)
    (hub : s.using_backup = false)
    (hb : cfg.backup_url ≠ "") (hcount : s.stream_failures + 1 ≥ failoverThreshold) :
    healthStreamStep cfg s now true c true true =
      ({ s with
          stream_retry_backoff := min (s.stream_retry_backoff * (3/2)) 60
          stream_failures := s.stream_failures + 1
          using_backup := true
          last_stream_attempt := now
          user_stopped := false },
       some cfg.backup_url) := by
  subst hc
  simp only [healthStreamStep, ne_eq, not_true_eq_false, false_and, and_false, if_true,
    ite_false, ite_true, if_pos (And.intro hb (And.intro hcount hub))]
  rw [if_pos ⟨hurl, hus, hg⟩]

/-- Helper: `using_backup`, once set, is preserved by any health-loop
step that does not trigger the internal network-change reset. -/
lemma healthStreamStep_backup_sticky (cfg : StreamCfg) (s : MpvState) (now : ℚ)
    (idle : Bool) (connType : String) (sideOk loadOk : Bool)
    (hub : s.using_backup = true)
    (hnr : ¬(s.last_connection_type ≠ "" ∧ connType ≠ s.last_connection_type ∧
        connType ≠ "none" ∧ connType ≠ "hotspot")) :
    (healthStreamStep cfg s now idle connType sideOk loadOk).1.using_backup = true := by
  cases idle
  · cases sideOk <;> simp [healthStreamStep, hub]
  · cases sideOk <;>
      simp only [healthStreamStep, if_true, if_neg hnr, ite_false, ite_true] <;>
      split_ifs <;> simp [hub]

/-- C4: with a primary and a backup URL configured and playback not
user-stopped, three consecutive idle health-loop cycles whose
stream-retry backoff has elapsed load the primary URL twice and then,
on exactly the third cycle, the backup URL with `using_backup` set; and
`using_backup` then stays true on every health-loop step that does not
trigger the internal network-change reset, until `reset_stream_retry`
runs, which clears it. -/
theorem backup_failover_after_three_cycles :
    (∀ (cfg : StreamCfg) (s0 s1 s2 s3 : MpvState) (t1 t2 t3 : ℚ) (c : String)
        (u1 u2 u3 : Option String),
      cfg.url ≠ "" → cfg.backup_url ≠ "" →
      s0.user_stopped = false → s0.using_backup = false → s0.stream_failures = 0 →
      c = s0.last_connection_type →
      t1 - s0.last_stream_attempt > s0.stream_retry_backoff →
      healthStreamStep cfg s0 t1 true c true true = (s1, u1) →
      t2 - s1.last_stream_attempt > s1.stream_retry_backoff →
      healthStreamStep cfg s1 t2 true c true true = (s2, u2) →
      t3 - s2.last_stream_attempt > s2.stream_retry_backoff →
      healthStreamStep cfg s2 t3 true c true true = (s3, u3) →
      u1 = some cfg.url ∧ s1.using_backup = false ∧
      u2 = some cfg.url ∧ s2.using_backup = false ∧
      u3 = some cfg.backup_url ∧ s3.using_backup = true) ∧
    (∀ (cfg : StreamCfg) (s : MpvState) (now : ℚ) (idle : Bool)
        (connType : String) (sideOk loadOk : Bool),
      s.using_backup = true →
      ¬(s.last_connection_type ≠ "" ∧ connType ≠ s.last_connection_type ∧
          connType ≠ "none" ∧ connType ≠ "hotspot") →
      (healthStreamStep cfg s now idle connType sideOk loadOk).1.using_backup = true) ∧
    (∀ s : MpvState, (reset_stream_retry s).using_backup = false) := by
  refine ⟨?_, healthStreamStep_backup_sticky, fun _ => rfl⟩
  intro cfg s0 s1 s2 s3 t1 t2 t3 c u1 u2 u3
  intro hurl hback hus hub hf hc hg1 h1 hg2 h2 hg3 h3
  rw [healthStreamStep_attempt_primary cfg s0 t1 c hc hurl hus hg1 hub
    (by intro h; rw [hf] at h; exact absurd h.2.1 (by decide))] at h1
  injection h1 with hs1 hu1
  have h1b : s1.using_backup = false := by rw [← hs1]; exact hub
  have h1us : s1.user_stopped = false := by rw [← hs1]
  have h1f : s1.stream_failures = s0.stream_failures + 1 := by rw [← hs1]
  have h1c : s1.last_connection_type = s0.last_connection_type := by rw [← hs1]
  rw [healthStreamStep_attempt_primary cfg s1 t2 c (hc.trans h1c.symm) hurl h1us hg2 h1b
    (by intro h; rw [h1f, hf] at h; exact absurd h.2.1 (by decide))] at h2
  injection h2 with hs2 hu2
  have h2b : s2.using_backup = false := by rw [← hs2]; exact h1b
  have h2us : s2.user_stopped = false := by rw [← hs2]
  have h2f : s2.stream_failures = s1.stream_failures + 1 := by rw [← hs2]
  have h2c : s2.last_connection_type = s1.last_connection_type := by rw [← hs2]
  rw [healthStreamStep_attempt_backup cfg s2 t3 c ((hc.trans h1c.symm).trans h2c.symm)
    hurl h2us hg3 h2b hback (by rw [h2f, h1f, hf]; decide)] at h3
  injection h3 with hs3 hu3
  have h3b : s3.using_backup = true := by rw [← hs3]
  exact ⟨hu1.symm, h1b, hu2.symm, h2b, hu3.symm, h3b⟩

/-- Witness for the failover claim: a concrete three-cycle run from the
fresh state (backoff 5, times 10/20/40) that loads `"p"`, `"p"`, then
`"b"`, plus a concrete sticky step. -/
theorem backup_failover_after_three_cycles_witness :
    ((10 : ℚ) - 0 > 5 ∧ (20 : ℚ) - 10 > 15/2 ∧ (40 : ℚ) - 20 > 45/4) ∧
    (some "p" = some ("p" : String) ∧
      (⟨15/2, 10, false, 1, false, ""⟩ : MpvState).using_backup = false ∧
      some "p" = some ("p" : String) ∧
      (⟨45/4, 20, false, 2, false, ""⟩ : MpvState).using_backup = false ∧
      some "b" = some ("b" : String) ∧
      (⟨135/8, 40, false, 3, true, ""⟩ : MpvState).using_backup = true) ∧
    (healthStreamStep ⟨"p", "b"⟩ ⟨5, 0, false, 0, true, "eth"⟩ 100 true "eth" true
        true).1.using_backup = true := by
  have e1 : healthStreamStep ⟨"p", "b"⟩ ⟨5, 0, false, 0, false, ""⟩ 10 true "" true true =
      (⟨15/2, 10, false, 1, false, ""⟩, some "p") := by
    rw [healthStreamStep_attempt_primary ⟨"p", "b"⟩ ⟨5, 0, false, 0, false, ""⟩ 10 ""
      rfl (by decide) rfl (by norm_num) rfl (by decide)]
    simp only [Prod.mk.injEq, MpvState.mk.injEq]
    norm_num
  have e2 : healthStreamStep ⟨"p", "b"⟩ ⟨15/2, 10, false, 1, false, ""⟩ 20 true "" true true =
      (⟨45/4, 20, false, 2, false, ""⟩, some "p") := by
    rw [healthStreamStep_attempt_primary ⟨"p", "b"⟩ ⟨15/2, 10, false, 1, false, ""⟩ 20 ""
      rfl (by decide) rfl (by norm_num) rfl (by decide)]
    simp only [Prod.mk.injEq, MpvState.mk.injEq]
    norm_num
  have e3 : healthStreamStep ⟨"p", "b"⟩ ⟨45/4, 20, false, 2, false, ""⟩ 40 true "" true true =
      (⟨135/8, 40, false, 3, true, ""⟩, some "b") := by
    rw [healthStreamStep_attempt_backup ⟨"p", "b"⟩ ⟨45/4, 20, false, 2, false, ""⟩ 40 ""
      rfl (by decide) rfl (by norm_num) rfl (by decide) (by decide)]
    simp only [Prod.mk.injEq, MpvState.mk.injEq]
    norm_num
  refine ⟨⟨by norm_num, by norm_num, by norm_num⟩, ?_, ?_⟩
  · exact backup_failover_after_three_cycles.1 ⟨"p", "b"⟩ ⟨5, 0, false, 0, false, ""⟩
      ⟨15/2, 10, false, 1, false, ""⟩ ⟨45/4, 20, false, 2, false, ""⟩
      ⟨135/8, 40, false, 3, true, ""⟩ 10 20 40 "" (some "p") (some "p") (some "b")
      (by decide) (by decide) rfl rfl rfl rfl (by norm_num) e1 (by norm_num) e2
      (by norm_num) e3
  · exact backup_failover_after_three_cycles.2.1 ⟨"p", "b"⟩ ⟨5, 0, false, 0, true, "eth"⟩
      100 true "eth" true true rfl (by decide)

/-- C6: an IPC `send` call on a connected channel that receives no
matching response within its timeout fails with the timeout outcome and
deregisters its pending entry: afterwards the pending map no longer
contains the allocated request id (ids in flight never exceed the last
allocated id, which makes the fresh id unique). -/
theorem send_timeout_deregisters (s : ChanState)
    (resp : Option (Except String JVal))
    (hinv : ∀ i ∈ s.pending, i ≤ s.request_id) (hresp : resp = none) :
    (sendIpc s true resp).2 = SendOutcome.timeout ∧
    (sendIpc s true resp).1.pending = s.pending ∧
    (s.request_id + 1) ∉ (sendIpc s true resp).1.pending := by
  subst hresp
  have hp : (sendIpc s true none).1.pending = s.pending := by
    simp [sendIpc, List.erase_cons_head]
  refine ⟨by simp [sendIpc], hp, ?_⟩
  rw [hp]
  intro hmem
  have := hinv _ hmem
  omega

/-- Witness for the timeout claim at a concrete channel state. -/
theorem send_timeout_deregisters_witness :
    (∀ i ∈ ([3, 4] : List Nat), i ≤ 5) ∧
    ((sendIpc ⟨5, [3, 4]⟩ true none).2 = SendOutcome.timeout ∧
      (sendIpc ⟨5, [3, 4]⟩ true none).1.pending = [3, 4] ∧
      (5 + 1) ∉ (sendIpc ⟨5, [3, 4]⟩ true none).1.pending) :=
  ⟨by decide, send_timeout_deregisters ⟨5, [3, 4]⟩ none (by decide) rfl⟩

/-- Helper: a `lookup` succeeds exactly when the key occurs in the
association list. -/
lemma lookup_isSome_iff {α β : Type} [BEq α] [LawfulBEq α] (l : List (α × β)) (k : α) :
    ((l.lookup k).isSome = true) ↔ k ∈ l.map Prod.fst := by
  induction l with
  | nil => simp [List.lookup]
  | cons p l ih =>
    obtain ⟨a, b⟩ := p
    by_cases h : k = a
    · subst h
      simp [List.lookup]
    · have hb : (k == a) = false := beq_eq_false_iff_ne.mpr h
      simp [List.lookup, hb, ih, h]

/-- Helper: the two possible key sequences of the pause/idle/path
block. -/
lemma statusPlayBlock_keys (q : String → Option JVal) :
    (statusPlayBlock q).map Prod.fst = ["paused", "idle", "playing", "stream_url"] ∨
    (statusPlayBlock q).map Prod.fst = ["playing", "idle", "stream_url"] := by
  unfold statusPlayBlock
  split <;> simp

/-- Helper: the hwdec block's key sequence. -/
lemma statusHwBlock_keys (q : String → Option JVal) :
    (statusHwBlock q).map Prod.fst = ["hwdec_current"] := by
  unfold statusHwBlock
  split <;> simp

/-- Helper: the stats block's key sequence. -/
lemma statusStatsBlock_keys (q : String → Option JVal) :
    (statusStatsBlock q).map Prod.fst =
      ["fps", "dropped_frames", "decoder_drops", "resolution"] := by
  unfold statusStatsBlock
  split <;> simp

/-- C9: `get_status` is total and, for every behaviour of the property
oracle, the returned dict contains the keys `alive`, `playing`, `idle`,
`stream_url`, `hwdec_current`, `fps`, `dropped_frames`, `decoder_drops`,
`resolution` and `using_backup`; when every property query fails it
still returns, with `playing = False`, `idle = True` and an empty
`stream_url`. -/
theorem get_status_keys_and_fallback :
    ∀ (alive ub : Bool) (q : String → Option JVal),
      (((get_status alive ub q).lookup "alive").isSome = true ∧
        ((get_status alive ub q).lookup "playing").isSome = true ∧
        ((get_status alive ub q).lookup "idle").isSome = true ∧
        ((get_status alive ub q).lookup "stream_url").isSome = true ∧
        ((get_status alive ub q).lookup "hwdec_current").isSome = true ∧
        ((get_status alive ub q).lookup "fps").isSome = true ∧
        ((get_status alive ub q).lookup "dropped_frames").isSome = true ∧
        ((get_status alive ub q).lookup "decoder_drops").isSome = true ∧
        ((get_status alive ub q).lookup "resolution").isSome = true ∧
        ((get_status alive ub q).lookup "using_backup").isSome = true) ∧
      ((get_status alive ub fun _ => none).lookup "playing" = some (JVal.vBool false) ∧
        (get_status alive ub fun _ => none).lookup "idle" = some (JVal.vBool true) ∧
        (get_status alive ub fun _ => none).lookup "stream_url" = some (JVal.vStr "")) := by
  intro alive ub q
  have hpk := statusPlayBlock_keys q
  have hhk := statusHwBlock_keys q
  have hsk := statusStatsBlock_keys q
  constructor
  · refine ⟨?_, ?_, ?_, ?_, ?_, ?_, ?_, ?_, ?_, ?_⟩ <;>
    · rw [lookup_isSome_iff]
      simp only [get_status, List.map_append]
      rcases hpk with h | h <;> rw [h, hhk, hsk] <;> simp
  · cases alive <;> cases ub <;> decide


/-- C1 (spec-modelled circuit breaker): a call inside the backoff
window returns the cached status, makes zero remote requests and leaves
the state untouched; outside the window a failed call makes one remote
request, increments the consecutive-failure counter, and once the
counter has reached the threshold 5 it opens a window of
`2^(failures-5)` seconds (capped at 300) from `now` (below the
threshold the window field is unchanged); a successful call resets the
counter and the window to zero, as does a credential update. -/
theorem circuit_breaker_spec :
    ∀ (s : CBState) (now : Nat) (st : String) (o : CBOutcome),
      (now < s.backoff_until → cbGetLiveStatus s now o = (s, s.cached, 0)) ∧
      (¬now < s.backoff_until →
        (cbGetLiveStatus s now .failure).1.consecutive_failures =
            s.consecutive_failures + 1 ∧
          (cbGetLiveStatus s now .failure).2.1 = s.cached ∧
          (cbGetLiveStatus s now .failure).2.2 = 1 ∧
          (s.consecutive_failures + 1 ≥ cbThreshold →
            (cbGetLiveStatus s now .failure).1.backoff_until =
              now + min (2 ^ (s.consecutive_failures + 1 - cbThreshold)) cbMaxBackoff) ∧
          (s.consecutive_failures + 1 < cbThreshold →
            (cbGetLiveStatus s now .failure).1.backoff_until = s.backoff_until)) ∧
      (¬now < s.backoff_until →
        cbGetLiveStatus s now (.success st) = (⟨0, 0, st⟩, st, 1)) ∧
      ((cbUpdateCredentials s).consecutive_failures = 0 ∧
        (cbUpdateCredentials s).backoff_until = 0) := by
  intro s now st o
  refine ⟨fun h => by simp [cbGetLiveStatus, h], fun h => ?_, fun h => by
    simp [cbGetLiveStatus, h], rfl, rfl⟩
  simp only [cbGetLiveStatus, if_neg h, cbRecordFailure]
  refine ⟨trivial, trivial, trivial, fun hge => by simp [if_pos hge], fun hlt => by
    simp [if_neg (Nat.not_le.mpr hlt)]⟩

/-- Witness for the circuit-breaker claim: the fifth consecutive
failure at time 10 opens a 1-second window (10 + min 1 300 = 11), and a
call at time 50 inside a window lasting until 100 returns the cached
status with zero remote calls. -/
theorem circuit_breaker_spec_witness :
    ((50 : Nat) < 100 ∧
      cbGetLiveStatus ⟨5, 100, "cached"⟩ 50 .failure = (⟨5, 100, "cached"⟩, "cached", 0)) ∧
    (¬(10 : Nat) < 0 ∧
      (cbGetLiveStatus ⟨4, 0, "c"⟩ 10 .failure).1.consecutive_failures = 5 ∧
      (cbGetLiveStatus ⟨4, 0, "c"⟩ 10 .failure).1.backoff_until = 11) ∧
    cbGetLiveStatus ⟨7, 0, "c"⟩ 20 (.success "fresh") = (⟨0, 0, "fresh"⟩, "fresh", 1) :=
  ⟨⟨by decide, (circuit_breaker_spec ⟨5, 100, "cached"⟩ 50 "x" .failure).1 (by decide)⟩,
   ⟨by decide,
    ((circuit_breaker_spec ⟨4, 0, "c"⟩ 10 "x" .failure).2.1 (by decide)).1,
    by
      have h := (((circuit_breaker_spec ⟨4, 0, "c"⟩ 10 "x" .failure).2.1
        (by decide)).2.2.2.1) (by decide)
      simpa using h⟩,
   (circuit_breaker_spec ⟨7, 0, "c"⟩ 20 "fresh" .failure).2.2.1 (by decide)⟩


/-- Helper: a string starting with the character `E` never equals
`"OVERTIME"`. -/
lemma ne_overtime_of_head_e (s t : String) (hs : s.data.head? = some 'E') :
    (s ++ t) ≠ "OVERTIME" := by
  intro he
  have hd := congrArg String.data he
  rw [String.data_append] at hd
  have h2 := congrArg List.head? hd
  rcases hl : s.data with _ | ⟨c, cs⟩
  · rw [hl] at hs
    simp at hs
  · rw [hl] at hs h2
    simp [String.data] at hs h2
    subst hs
    exact absurd h2 (by decide)

/-- C7: the schedule-status line is `"OVERTIME"` exactly when no time
remains; otherwise, with projected end `now + r`, an absolute slip
under 60 s gives the on-time line, a slip of at least +60 s the behind
line and of at most -60 s the ahead line, each carrying the projected
local end time; in particular 10:00 + 1800 s against a 10:35 plan ends
5 m ahead at 10:30, and 10:00 + 2100 s against a 10:20 plan ends 15 m
behind at 10:35. -/
theorem format_schedule_status_spec :
    ∀ (r p now tz : Int),
      (formatScheduleStatus r (some p) now tz = "OVERTIME" ↔ r ≤ 0) ∧
      (0 < r → (now + r - p).natAbs < 60 →
        formatScheduleStatus r (some p) now tz =
          "Ends on time at " ++ hhmm (now + r) tz) ∧
      (0 < r → now + r - p ≥ 60 →
        formatScheduleStatus r (some p) now tz =
          "Ends " ++ toString ((now + r - p).natAbs / 60) ++ "m behind at " ++
            hhmm (now + r) tz) ∧
      (0 < r → now + r - p ≤ -60 →
        formatScheduleStatus r (some p) now tz =
          "Ends " ++ toString ((now + r - p).natAbs / 60) ++ "m ahead at " ++
            hhmm (now + r) tz) ∧
      formatScheduleStatus 1800 (some 38100) 36000 0 = "Ends 5m ahead at 10:30" ∧
      formatScheduleStatus 2100 (some 37200) 36000 0 = "Ends 15m behind at 10:35" := by
  intro r p now tz
  refine ⟨⟨?_, fun h => by simp [formatScheduleStatus, if_pos h]⟩, ?_, ?_, ?_,
    by decide, by decide⟩
  · intro h
    by_contra hr
    push_neg at hr
    have hne : formatScheduleStatus r (some p) now tz ≠ "OVERTIME" := by
      simp only [formatScheduleStatus, if_neg (not_le.mpr hr)]
      split_ifs with h1 h2
      · exact ne_overtime_of_head_e _ _ rfl
      · rw [String.append_assoc, String.append_assoc]
        exact ne_overtime_of_head_e _ _ rfl
      · rw [String.append_assoc, String.append_assoc]
        exact ne_overtime_of_head_e _ _ rfl
    exact absurd h hne
  · intro hr hab
    simp only [formatScheduleStatus, if_neg (not_le.mpr hr)]
    rw [if_pos hab]
  · intro hr hge
    have h1 : ¬((now + r - p).natAbs < 60) := by omega
    have h2 : now + r - p > 0 := by omega
    simp only [formatScheduleStatus, if_neg (not_le.mpr hr)]
    rw [if_neg h1, if_pos h2]
  · intro hr hle
    have h1 : ¬((now + r - p).natAbs < 60) := by omega
    have h2 : ¬(now + r - p > 0) := by omega
    simp only [formatScheduleStatus, if_neg (not_le.mpr hr)]
    rw [if_neg h1, if_neg h2]

/-- Witness for the schedule-status claim at the spec's own examples
(10:00 local, offset 0). -/
theorem format_schedule_status_spec_witness :
    ((0 : Int) < 2100 ∧ (36000 + 2100 - 37200 : Int) ≥ 60) ∧
    formatScheduleStatus 2100 (some 37200) 36000 0 =
      "Ends " ++ toString (((36000 : Int) + 2100 - 37200).natAbs / 60) ++
        "m behind at " ++ hhmm (36000 + 2100) 0 :=
  ⟨⟨by decide, by decide⟩,
   (format_schedule_status_spec 2100 37200 36000 0).2.2.1 (by decide) (by decide)⟩


/-- C10: `to_dict_safe` is independent of the PCO secret — two configs
differing only in `pco.secret` export identical dicts — and the
exported pco section carries no `secret` key at all. -/
theorem to_dict_safe_secret_independent :
    ∀ (c : Config) (s₁ s₂ : String),
      to_dict_safe { c with pco := { c.pco with secret := s₁ } } =
        to_dict_safe { c with pco := { c.pco with secret := s₂ } } ∧
      (((to_dict_safe c).lookup "pco").getD []).lookup "secret" = none := by
  intro c s₁ s₂
  exact ⟨rfl, rfl⟩

/-- Helper: once the selection loop holds a candidate it never returns
`none`. -/
lemma findBestGo_some (b : Candidate) (bestLs : Nat) (l : List Candidate) :
    (findBestGo (some b) bestLs l).isSome = true := by
  induction l generalizing b bestLs with
  | nil => rfl
  | cons c rest ih =>
    simp only [findBestGo]
    split
    · exact ih c _
    · exact ih b bestLs

/-- Helper: full characterisation of the selection loop — its result is
either the incoming best (with nothing in the list beating the incoming
score) or the first list element attaining the maximum. -/
lemma findBestGo_spec (l : List Candidate) :
    ∀ (best : Option Candidate) (bestLs : Nat),
      (∀ b, best = some b → b.live_start_at = bestLs) →
      ∀ w, findBestGo best bestLs l = some w →
        (best = some w ∧ ∀ d ∈ l, d.live_start_at ≤ bestLs) ∨
        (∃ pre post, l = pre ++ w :: post ∧ bestLs < w.live_start_at ∧
          (∀ d ∈ pre, d.live_start_at < w.live_start_at) ∧
          (∀ d ∈ post, d.live_start_at ≤ w.live_start_at)) := by
  induction l with
  | nil =>
    intro best bestLs hbest w hw
    left
    exact ⟨hw, by simp⟩
  | cons c rest ih =>
    intro best bestLs hbest w hw
    simp only [findBestGo] at hw
    by_cases h : bestLs < c.live_start_at
    · rw [if_pos h] at hw
      rcases ih (some c) c.live_start_at (by intro b hb; cases hb; rfl) w hw with
        ⟨hcw, hall⟩ | ⟨pre, post, heq, hlt, hpre, hpost⟩
      · injection hcw with hcw'
        subst hcw'
        right
        exact ⟨[], rest, rfl, h, by simp, hall⟩
      · right
        refine ⟨c :: pre, post, by rw [heq]; rfl, lt_trans h hlt, ?_, hpost⟩
        intro d hd
        rcases List.mem_cons.mp hd with rfl | hd'
        · exact hlt
        · exact hpre d hd'
    · rw [if_neg h] at hw
      rcases ih best bestLs hbest w hw with ⟨hbw, hall⟩ |
        ⟨pre, post, heq, hlt, hpre, hpost⟩
      · left
        refine ⟨hbw, ?_⟩
        intro d hd
        rcases List.mem_cons.mp hd with rfl | hd'
        · omega
        · exact hall d hd'
      · right
        refine ⟨c :: pre, post, by rw [heq]; rfl, hlt, ?_, hpost⟩
        intro d hd
        rcases List.mem_cons.mp hd with rfl | hd'
        · omega
        · exact hpre d hd'

/-- Helper: the loop finds a winner whenever some candidate beats the
`datetime.min` sentinel. -/
lemma findBestGo_none_isSome (l : List Candidate)
    (h : ∃ c ∈ l, 0 < c.live_start_at) : (findBestGo none 0 l).isSome = true := by
  induction l with
  | nil => simp at h
  | cons c rest ih =>
    obtain ⟨d, hd, hdl⟩ := h
    simp only [findBestGo]
    by_cases hc : 0 < c.live_start_at
    · rw [if_pos hc]
      exact findBestGo_some c _ rest
    · rw [if_neg hc]
      apply ih
      rcases List.mem_cons.mp hd with rfl | hd'
      · omega
      · exact ⟨d, hd', hdl⟩

/-- C5: the discovery winner is the first candidate attaining the
strictly greatest `live_start_at` — everything discovered before it is
strictly smaller (so equal timestamps keep the first found) and nothing
discovered after it is greater — and a winner exists whenever any
candidate has a live start beyond the `datetime.min` sentinel. -/
theorem find_best_live_plan_spec :
    (∀ (cands : List Candidate) (w : Candidate),
      findBestLivePlan cands = some w →
      0 < w.live_start_at ∧
      (∀ d ∈ cands, d.live_start_at ≤ w.live_start_at) ∧
      ∃ pre post, cands = pre ++ w :: post ∧
        ∀ d ∈ pre, d.live_start_at < w.live_start_at) ∧
    (∀ cands : List Candidate,
      (∃ c ∈ cands, 0 < c.live_start_at) →
      (findBestLivePlan cands).isSome = true) := by
  constructor
  · intro cands w hw
    rcases findBestGo_spec cands none 0 (by intro b hb; cases hb) w hw with
      ⟨hbw, _⟩ | ⟨pre, post, heq, hlt, hpre, hpost⟩
    · exact absurd hbw (by simp)
    · refine ⟨hlt, ?_, pre, post, heq, hpre⟩
      intro d hd
      rw [heq] at hd
      rcases List.mem_append.mp hd with hd' | hd'
      · exact le_of_lt (hpre d hd')
      · rcases List.mem_cons.mp hd' with rfl | hd''
        · exact le_refl _
        · exact hpost d hd''
  · intro cands h
    exact findBestGo_none_isSome cands h

/-- Witness for the discovery-selection claim: among live starts
5, 9, 9, 3 the winner is the first candidate with 9. -/
theorem find_best_live_plan_spec_witness :
    findBestLivePlan
        [⟨"a", "s", 5, none, none⟩, ⟨"b", "s", 9, none, none⟩,
         ⟨"c", "s", 9, none, none⟩, ⟨"d", "s", 3, none, none⟩] =
      some ⟨"b", "s", 9, none, none⟩ ∧
    0 < (⟨"b", "s", 9, none, none⟩ : Candidate).live_start_at ∧
    (findBestLivePlan
        [⟨"a", "s", 5, none, none⟩, ⟨"b", "s", 9, none, none⟩,
         ⟨"c", "s", 9, none, none⟩, ⟨"d", "s", 3, none, none⟩]).isSome = true :=
  ⟨rfl,
   (find_best_live_plan_spec.1
     [⟨"a", "s", 5, none, none⟩, ⟨"b", "s", 9, none, none⟩,
      ⟨"c", "s", 9, none, none⟩, ⟨"d", "s", 3, none, none⟩]
     ⟨"b", "s", 9, none, none⟩ rfl).1,
   find_best_live_plan_spec.2
     [⟨"a", "s", 5, none, none⟩, ⟨"b", "s", 9, none, none⟩,
      ⟨"c", "s", 9, none, none⟩, ⟨"d", "s", 3, none, none⟩]
     ⟨⟨"a", "s", 5, none, none⟩, by decide, by decide⟩⟩

/-- C2 counterexample: a locked plan whose poll reports no
current-item-time reference while `seen_active_item` is set yields a
finished (still-live) status and RETAINS all lock state — it is not
cleared and the invocation does not fall through to discovery. -/
theorem unlock_latch_counterexample :
    (fetchLiveStatusLocked ⟨some "p1", some "s1", none, none, some 100, true, 0⟩
        ⟨30, fun _ _ => .ok ⟨"T", none, none, []⟩, none, {}⟩).1.locked_plan_id =
      some "p1" ∧
    (fetchLiveStatusLocked ⟨some "p1", some "s1", none, none, some 100, true, 0⟩
        ⟨30, fun _ _ => .ok ⟨"T", none, none, []⟩, none, {}⟩).1.seen_active_item =
      true ∧
    (fetchLiveStatusLocked ⟨some "p1", some "s1", none, none, some 100, true, 0⟩
        ⟨30, fun _ _ => .ok ⟨"T", none, none, []⟩, none, {}⟩).2.1.finished = true ∧
    (fetchLiveStatusLocked ⟨some "p1", some "s1", none, none, some 100, true, 0⟩
        ⟨30, fun _ _ => .ok ⟨"T", none, none, []⟩, none, {}⟩).2.1.is_live = true ∧
    (fetchLiveStatusLocked ⟨some "p1", some "s1", none, none, some 100, true, 0⟩
        ⟨30, fun _ _ => .ok ⟨"T", none, none, []⟩, none, {}⟩).2.2 =
      [.poll "p1" "s1"] := by
  decide

/-- C2 (amended): a no-current-item-time poll with the latch set yields
a finished, still-live status and keeps the lock (given the periodic
rescan is not due); the lock state is cleared — with the same
invocation falling through to discovery — exactly when the poll reports
neither live nor finished, which for a well-formed response means no
current-item-time reference with the latch NOT set. -/
theorem session_end_unlock_spec :
    (∀ (s : TrackerState) (env : TrackerEnv) (pid stid : String) (r : LiveResp),
      s.locked_plan_id = some pid → s.locked_st_id = some stid →
      env.poll pid stid = .ok r → r.cit_ref = none → s.seen_active_item = true →
      env.now - s.last_full_scan < 60 →
      (fetchLiveStatusLocked s env).1.locked_plan_id = some pid ∧
      (fetchLiveStatusLocked s env).1.seen_active_item = true ∧
      (fetchLiveStatusLocked s env).2.1.is_live = true ∧
      (fetchLiveStatusLocked s env).2.1.finished = true) ∧
    (∀ (s : TrackerState) (env : TrackerEnv) (pid stid : String) (r : LiveResp),
      s.locked_plan_id = some pid → s.locked_st_id = some stid →
      env.poll pid stid = .ok r → r.cit_ref = none → s.seen_active_item = false →
      env.scan = none →
      (fetchLiveStatusLocked s env).1.locked_plan_id = none ∧
      (fetchLiveStatusLocked s env).1.locked_st_id = none ∧
      (fetchLiveStatusLocked s env).1.locked_service_start = none ∧
      (fetchLiveStatusLocked s env).1.locked_planned_end = none ∧
      (fetchLiveStatusLocked s env).1.locked_live_start_at = none ∧
      (fetchLiveStatusLocked s env).1.seen_active_item = false ∧
      (fetchLiveStatusLocked s env).2.1 = env.upcoming ∧
      (fetchLiveStatusLocked s env).2.2 = [.poll pid stid, .scan, .upcoming]) := by
  constructor
  · intro s env pid stid r h1 h2 hp hcit hseen hlt
    obtain ⟨lp, ls, ss, pe, lsa, latch, lfs⟩ := s
    subst h1
    subst h2
    subst hseen
    simp only [fetchLiveStatusLocked, pollLive, hp, parseLiveResponse, hcit,
      finishedStatus, if_true, Bool.or_self, if_pos]
    have hlt' : env.now - lfs < 60 := hlt
    rw [if_neg (by omega)]
    exact ⟨rfl, rfl, rfl, rfl⟩
  · intro s env pid stid r h1 h2 hp hcit hseen hscan
    obtain ⟨lp, ls, ss, pe, lsa, latch, lfs⟩ := s
    subst h1
    subst h2
    subst hseen
    simp only [fetchLiveStatusLocked, pollLive, hp, parseLiveResponse, hcit,
      Bool.or_self, if_false, ite_false, discoverAndPoll, hscan, clearLock]
    exact ⟨rfl, rfl, rfl, rfl, rfl, rfl, rfl, rfl⟩

/-- Witness for the unlock claim: concrete finished-keeps-lock and
not-live-unlocks runs. -/
theorem session_end_unlock_spec_witness :
    (fetchLiveStatusLocked ⟨some "p1", some "s1", none, none, some 100, true, 0⟩
        ⟨30, fun _ _ => .ok ⟨"T", none, none, []⟩, none, {}⟩).2.1.finished = true ∧
    (fetchLiveStatusLocked ⟨some "p1", some "s1", none, none, some 100, false, 0⟩
        ⟨30, fun _ _ => .ok ⟨"T", none, none, []⟩, none, {}⟩).1.locked_plan_id = none ∧
    (fetchLiveStatusLocked ⟨some "p1", some "s1", none, none, some 100, false, 0⟩
        ⟨30, fun _ _ => .ok ⟨"T", none, none, []⟩, none, {}⟩).2.2 =
      [.poll "p1" "s1", .scan, .upcoming] :=
  ⟨(session_end_unlock_spec.1 ⟨some "p1", some "s1", none, none, some 100, true, 0⟩
      ⟨30, fun _ _ => .ok ⟨"T", none, none, []⟩, none, {}⟩ "p1" "s1"
      ⟨"T", none, none, []⟩ rfl rfl rfl rfl rfl (by decide)).2.2.2,
   (session_end_unlock_spec.2 ⟨some "p1", some "s1", none, none, some 100, false, 0⟩
      ⟨30, fun _ _ => .ok ⟨"T", none, none, []⟩, none, {}⟩ "p1" "s1"
      ⟨"T", none, none, []⟩ rfl rfl rfl rfl rfl rfl).1,
   (session_end_unlock_spec.2 ⟨some "p1", some "s1", none, none, some 100, false, 0⟩
      ⟨30, fun _ _ => .ok ⟨"T", none, none, []⟩, none, {}⟩ "p1" "s1"
      ⟨"T", none, none, []⟩ rfl rfl rfl rfl rfl rfl).2.2.2.2.2.2.2⟩

/-- C3 counterexample: while locked, a 60-second rescan that finds a
different plan with a strictly newer `live_start_at` issues a second
poll in the same invocation — poll, scan, and the takeover re-poll —
not exactly one remote call plus a scan. -/
theorem locked_single_call_counterexample :
    (fetchLiveStatusLocked ⟨some "p1", some "s1", none, none, some 100, false, 0⟩
        ⟨100, fun _ _ => .ok ⟨"T", none, some "ct", [.itemTime "ct" (some 150) none]⟩,
         some ⟨"p2", "s2", 200, none, none⟩, {}⟩).2.2 =
      [.poll "p1" "s1", .scan, .poll "p2" "s2"] ∧
    (fetchLiveStatusLocked ⟨some "p1", some "s1", none, none, some 100, false, 0⟩
        ⟨100, fun _ _ => .ok ⟨"T", none, some "ct", [.itemTime "ct" (some 150) none]⟩,
         some ⟨"p2", "s2", 200, none, none⟩, {}⟩).1.locked_plan_id = some "p2" := by
  decide

/-- C3 (amended): while locked and with the poll reporting live or
finished, an invocation issues exactly one remote poll of the locked
plan when the 60-second rescan is not due; when it is due, one
additional full discovery scan and, exactly when the scan triggers the
takeover switch, one immediate re-poll of the newly locked plan (at
most one lock exists throughout: the state holds a single optional
plan id). -/
theorem locked_invocation_trace_spec :
    ∀ (s : TrackerState) (env : TrackerEnv) (pid stid : String),
      s.locked_plan_id = some pid → s.locked_st_id = some stid →
      ((pollLive s pid stid env).1.is_live || (pollLive s pid stid env).1.finished)
          = true →
      (env.now - s.last_full_scan < 60 →
        (fetchLiveStatusLocked s env).2.2 = [.poll pid stid]) ∧
      (env.now - s.last_full_scan ≥ 60 →
        (fetchLiveStatusLocked s env).2.2 = [.poll pid stid, .scan] ∨
        ∃ b : ScanResult, env.scan = some b ∧ b.plan_id ≠ pid ∧
          (fetchLiveStatusLocked s env).2.2 =
            [.poll pid stid, .scan, .poll b.plan_id b.st_id]) := by
  intro s env pid stid h1 h2 hlive
  obtain ⟨lp, ls, ss, pe, lsa, latch, lfs⟩ := s
  subst h1
  subst h2
  cases hq : env.poll pid stid with
  | notFound =>
    simp only [pollLive, hq] at hlive
    simp at hlive
  | httpError =>
    simp only [pollLive, hq] at hlive
    simp at hlive
  | ok r =>
    simp only [pollLive, hq] at hlive
    simp only [fetchLiveStatusLocked, pollLive, hq, hlive, if_true]
    constructor
    · intro hlt
      rw [if_neg (by omega)]
    · intro hge
      rw [if_pos (by omega)]
      cases hscan : env.scan with
      | none => left; rfl
      | some b =>
        cases lsa with
        | none => left; rfl
        | some l =>
          by_cases hsw : b.plan_id ≠ pid ∧ b.live_start_at > l
          · right
            refine ⟨b, rfl, hsw.1, ?_⟩
            dsimp only
            rw [if_pos hsw]
          · left
            dsimp only
            rw [if_neg hsw]

/-- Witness for the locked-invocation trace claim: a concrete fast-path
run (one poll) and a concrete rescan-due run. -/
theorem locked_invocation_trace_spec_witness :
    (fetchLiveStatusLocked ⟨some "p1", some "s1", none, none, some 100, false, 0⟩
        ⟨30, fun _ _ => .ok ⟨"T", none, some "ct", [.itemTime "ct" (some 150) none]⟩,
         none, {}⟩).2.2 = [.poll "p1" "s1"] ∧
    ((fetchLiveStatusLocked ⟨some "p1", some "s1", none, none, some 100, false, 0⟩
        ⟨100, fun _ _ => .ok ⟨"T", none, some "ct", [.itemTime "ct" (some 150) none]⟩,
         some ⟨"p2", "s2", 200, none, none⟩, {}⟩).2.2 =
        [.poll "p1" "s1", .scan] ∨
      ∃ b : ScanResult,
        (⟨100, fun _ _ => .ok ⟨"T", none, some "ct", [.itemTime "ct" (some 150) none]⟩,
          some ⟨"p2", "s2", 200, none, none⟩, {}⟩ : TrackerEnv).scan = some b ∧
        b.plan_id ≠ "p1" ∧
        (fetchLiveStatusLocked ⟨some "p1", some "s1", none, none, some 100, false, 0⟩
            ⟨100, fun _ _ => .ok ⟨"T", none, some "ct",
              [.itemTime "ct" (some 150) none]⟩,
             some ⟨"p2", "s2", 200, none, none⟩, {}⟩).2.2 =
          [.poll "p1" "s1", .scan, .poll b.plan_id b.st_id]) :=
  ⟨(locked_invocation_trace_spec ⟨some "p1", some "s1", none, none, some 100, false, 0⟩
      ⟨30, fun _ _ => .ok ⟨"T", none, some "ct", [.itemTime "ct" (some 150) none]⟩,
       none, {}⟩ "p1" "s1" rfl rfl (by decide)).1 (by decide),
   (locked_invocation_trace_spec ⟨some "p1", some "s1", none, none, some 100, false, 0⟩
      ⟨100, fun _ _ => .ok ⟨"T", none, some "ct", [.itemTime "ct" (some 150) none]⟩,
       some ⟨"p2", "s2", 200, none, none⟩, {}⟩ "p1" "s1" rfl rfl (by decide)).2
     (by decide)⟩
